import Mathlib

/-!
Shallow embedding of the plug-core remote-API call engine
(src/remote-api.ts and the vendored core `Pluggable` pipeline, the auth
strategies under src/auth and src/core/src/auth, and the exceptions and
types modules), together with theorems settling the frozen claims about
the natural-language specification.

JavaScript objects are modelled as ordered association lists, mutation as
explicit state passing, thrown exceptions as `Except`, and the observable
effects of one `call()` invocation (event emissions, transport dispatches,
token-refresh invocations) as an effect trace returned alongside the
result.
-/

namespace PlugCore

/-- Association-list lookup, models JS property access `obj[k]`. -/
def lookupKey {κ α : Type} [DecidableEq κ] (k : κ) : List (κ × α) → Option α
  | [] => none
  | (k', v) :: rest => if k' = k then some v else lookupKey k rest

/-- Models JS property assignment `obj[k] = v`: overwrites an existing key
in place, otherwise appends the new key at the end. -/
def setField {α : Type} (fields : List (String × α)) (k : String) (v : α) :
    List (String × α) :=
  if fields.any (fun p => p.1 = k) then
    fields.map (fun p => if p.1 = k then (k, v) else p)
  else
    fields ++ [(k, v)]

/-- Models the JS object spread `{...a, ...b}`. -/
def mergeFields {α : Type} (a b : List (String × α)) : List (String × α) :=
  b.foldl (fun acc kv => setField acc kv.1 kv.2) a

/-- JSON-like runtime values (payloads, query objects, response data). -/
inductive Json where
  | null
  | bool (b : Bool)
  | num (n : Int)
  | str (s : String)
  | arr (items : List Json)
  | obj (fields : List (String × Json))

/-- JS truthiness of a value, as used by `if (...)` checks in the source. -/
def isTruthy : Json → Bool
  | Json.null => false
  | Json.bool b => b
  | Json.num n => n ≠ 0
  | Json.str s => s ≠ ""
  | Json.arr _ => true
  | Json.obj _ => true

/-- Split a character list on `.`, models `path.split('.')` as used by
lodash `get` for dot-notation paths. -/
def splitOnDotAux : List Char → List Char → List String
  | [], acc => [acc.reverse.asString]
  | '.' :: rest, acc => acc.reverse.asString :: splitOnDotAux rest []
  | c :: rest, acc => splitOnDotAux rest (c :: acc)

/-- Models `splitPath "a.b.c" = ["a", "b", "c"]`. -/
def splitPath (s : String) : List String := splitOnDotAux s.toList []

/-- Traverse a JSON value along a list of path segments: object segments
are property lookups, array segments are numeric indices.  Models the
traversal performed by lodash `get`. -/
def getPath : List String → Json → Option Json
  | [], v => some v
  | k :: rest, Json.obj fields =>
    match lookupKey k fields with
    | some v => getPath rest v
    | none => none
  | k :: rest, Json.arr items =>
    match k.toNat? with
    | some i =>
      match items.get? i with
      | some v => getPath rest v
      | none => none
    | none => none
  | _ :: _, _ => none

/-- lodash `get(payload, path)` for dot-notation paths; `none` models the
JS result `undefined`. -/
def lodashGet (payload : Json) (path : String) : Option Json :=
  getPath (splitPath path) payload

/-- Models `RemoteAPI.normalizeWithObjectMapping`: walk the mapping table in
order; a resolved source path sets the target key, a missing one is
skipped and recorded as a logger warning.  The function is total: it
never throws.  First component: the normalized object; second component:
the `(targetKey, sourcePath)` pairs that produced a warning. -/
def normalizeWithObjectMapping (mapping : List (String × String))
    (payload : Json) : List (String × Json) × List (String × String) :=
  mapping.foldl
    (fun acc kv =>
      match lodashGet payload kv.2 with
      | some v => (setField acc.1 kv.1 v, acc.2)
      | none => (acc.1, acc.2 ++ [kv]))
    ([], [])

/-! ## URL resolver (`RemoteAPI.constructUrl` and its helpers) -/

/-- A character matched by the `[a-zA-Z0-9_]` class of the path-parameter
regexes. -/
def isParamChar (c : Char) : Bool :=
  (('a' ≤ c && c ≤ 'z') || ('A' ≤ c && c ≤ 'Z') || ('0' ≤ c && c ≤ '9')
    || c = '_')

/-- Models `url.includes('://')`. -/
def hasSchemeSep : List Char → Bool
  | ':' :: '/' :: '/' :: _ => true
  | _ :: rest => hasSchemeSep rest
  | [] => false

/-- Models `RemoteAPI.resolveBaseUrl`: a template containing a scheme separator
is absolute, any other template is appended to the base URL. -/
def resolveBaseUrl (baseUrl url : String) : String :=
  if hasSchemeSep url.toList then url else baseUrl ++ url

/-- Scanning loop of the regex `/\/:([a-zA-Z0-9_]+)/g` in
`RemoteAPI.extractPathParamNames`: collect the name after each `/:`
occurrence, resuming after the matched text; on a failed match the scan
advances one character.  Fuel-indexed for structural recursion; the fuel
is the number of characters remaining. -/
def extractAux : Nat → List Char → List String
  | 0, _ => []
  | _, [] => []
  | fuel + 1, c :: rest =>
    match c, rest with
    | '/', ':' :: rest2 =>
      let name := rest2.takeWhile isParamChar
      match name with
      | [] => extractAux fuel rest
      | _ => name.asString :: extractAux fuel (rest2.drop name.length)
    | _, _ => extractAux fuel rest

/-- Models `RemoteAPI.extractPathParamNames`. -/
def extractPathParamNames (url : String) : List String :=
  extractAux url.toList.length url.toList

/-- One `acc.replace(new RegExp(':key(?=/|$)', 'g'), value)` pass of
`RemoteAPI.replacePathParams`: replace every occurrence of `:key` that is
immediately followed by `/` or the end of the string; the lookahead is
not consumed.  Fuel-indexed for structural recursion. -/
def replaceParamAux (key value : List Char) : Nat → List Char → List Char
  | 0, cs => cs
  | _, [] => []
  | fuel + 1, c :: rest =>
    if c = ':' ∧ key.isPrefixOf rest ∧
        (rest.drop key.length = [] ∨ (rest.drop key.length).head? = some '/')
    then value ++ replaceParamAux key value fuel (rest.drop key.length)
    else c :: replaceParamAux key value fuel rest

/-- Models `RemoteAPI.replacePathParams`: fold the replacement pass over the
entries of the `pathParams` object; an absent object leaves the URL
unchanged. -/
def replacePathParams (url : String)
    (pathParams : Option (List (String × String))) : String :=
  match pathParams with
  | none => url
  | some entries =>
    (entries.foldl
      (fun acc kv =>
        replaceParamAux kv.1.toList kv.2.toList acc.length acc)
      url.toList).asString

/-- Failures of URL construction: the `Missing path parameter(s)` errors
thrown by `RemoteAPI.validatePathParams` (the spec's
`MissingPathParameter`).  The first form is thrown when no `pathParams`
argument was supplied at all, the second lists the missing names. -/
inductive UrlFailure where
  | noPathParams (url : String) (required : List String)
  | missingParams (url : String) (missing : List String)
deriving DecidableEq

/-- Models `RemoteAPI.validatePathParams`. -/
def validatePathParams (url : String) (requiredPathParams : List String)
    (pathParams : Option (List (String × String))) : Except UrlFailure Unit :=
  match requiredPathParams with
  | [] => Except.ok ()
  | _ =>
    match pathParams with
    | none => Except.error (UrlFailure.noPathParams url requiredPathParams)
    | some entries =>
      match requiredPathParams.filter
          (fun p => !(entries.any (fun kv => kv.1 = p))) with
      | [] => Except.ok ()
      | missing => Except.error (UrlFailure.missingParams url missing)

/-- Models `RemoteAPI.constructUrl`: resolve against the base URL, extract the
required path parameters from the resolved URL, validate they are all
supplied, then substitute them. -/
def constructUrl (baseUrl url : String)
    (pathParams : Option (List (String × String))) : Except UrlFailure String :=
  let resolvedUrl := resolveBaseUrl baseUrl url
  let requiredPathParams := extractPathParamNames resolvedUrl
  match validatePathParams url requiredPathParams pathParams with
  | Except.error e => Except.error e
  | Except.ok _ => Except.ok (replacePathParams resolvedUrl pathParams)

/-! ## Rate limiter (`RemoteAPI.enforceGlobalRateLimit`) -/

/-- The rate-limit configuration: `rateLimit()` and
`rateLimitWindowLength()`. -/
structure RateLimitConfig where
  rateLimit : Nat
  rateLimitWindowLength : Nat

/-- The per-service mutable rate-limiting fields of `RemoteAPI`. -/
structure RateLimitState (α : Type) where
  rateLimitWindowCounter : Nat
  lastWindowOverflow : Nat
  currentRateLimitWindowStart : Nat
  rateLimitedApiCalls : List α

/-- Models `RemoteAPI.nextRateLimitWindow`. -/
def nextRateLimitWindow {α : Type} (cfg : RateLimitConfig)
    (st : RateLimitState α) : Nat :=
  st.currentRateLimitWindowStart + cfg.rateLimitWindowLength

/-- Models `RemoteAPI.enforceGlobalRateLimit`: on window expiry record the
overflow, start a fresh window and clear the buffer; then reject (pushing
the call onto the overflow buffer) when the counter has reached the
limit, otherwise increment the counter and admit.  Returns `true` when
the call is rejected, exactly like the source. -/
def enforceGlobalRateLimit {α : Type} (cfg : RateLimitConfig) (now : Nat)
    (st : RateLimitState α) (apiCall : α) : Bool × RateLimitState α :=
  let st :=
    if nextRateLimitWindow cfg st ≤ now then
      { st with
        lastWindowOverflow := st.rateLimitedApiCalls.length
        currentRateLimitWindowStart := now
        rateLimitWindowCounter := 0
        rateLimitedApiCalls := [] }
    else st
  if cfg.rateLimit ≤ st.rateLimitWindowCounter then
    (true, { st with rateLimitedApiCalls := st.rateLimitedApiCalls ++ [apiCall] })
  else
    (false, { st with rateLimitWindowCounter := st.rateLimitWindowCounter + 1 })

/-- The rate-limit state a freshly constructed service starts with:
counter `0`, no recorded overflow, window started at construction time,
empty overflow buffer. -/
def initialRateLimitState {α : Type} (constructedAt : Nat) :
    RateLimitState α :=
  { rateLimitWindowCounter := 0
    lastWindowOverflow := 0
    currentRateLimitWindowStart := constructedAt
    rateLimitedApiCalls := [] }

/-- A sequence of admission checks, each with its own `Date.now()` value
and call object, folded over the rate-limit state. -/
def admitSeq {α : Type} (cfg : RateLimitConfig) (st : RateLimitState α)
    (checks : List (Nat × α)) : RateLimitState α :=
  checks.foldl (fun s nc => (enforceGlobalRateLimit cfg nc.1 s nc.2).2) st

/-! ## Data model (`types.ts`) -/

/-- The `AuthStrategy.Type` enum. -/
inductive AuthType where
  | NONE
  | BEARER_TOKEN
  | REFRESHABLE_BEARER_TOKEN
  | UNIPILE_CUSTOM_AUTH_BEARER_TOKEN
deriving DecidableEq

/-- Models `EndpointCallParams`: the caller-supplied parameters of one `call()`
invocation.  `none` fields model absent JS properties. -/
structure CallParams where
  pathParams : Option (List (String × String)) := none
  query : Option Json := none
  payload : Option Json := none
  auth : Option (List (String × Json)) := none
  context : Option Json := none

/-- An endpoint's optional `normalizationMapping`: a mapping table of
target key to dot-notation source path, or a function of the call params
and the raw payload (the `api` self argument is dropped from the model). -/
inductive NormalizationMapping where
  | table (m : List (String × String))
  | func (f : Option CallParams → Json → Json)

/-- Models `Endpoint`: the immutable descriptor built by `initEndpoints`. -/
structure Endpoint where
  name : String
  method : String
  url : String
  authentication : Option AuthType := none
  headers : Option (List (String × String)) := none
  normalizationMapping : Option NormalizationMapping := none

/-- An `AxiosResponse`, reduced to the fields the engine reads. -/
structure Response where
  status : Nat
  statusText : String := ""
  data : Json

/-- The error thrown by a failed transport dispatch (`doCall`);
`isAxios` records what `isAxiosError(error)` returns on it. -/
structure DispatchErr where
  isAxios : Bool
  status : Nat
  data : Json

/-- Models `APICall.request`. -/
structure Request where
  method : String
  url : String
  query : Option Json := none
  headers : List (String × String) := []
  auth : Option (List (String × Json)) := none
  payload : Option Json := none

/-- Models `APICall`: one invocation's mutable state. -/
structure APICall where
  endpoint : Endpoint
  request : Request
  response : Option Response := none

/-- The exception taxonomy of one `call()` invocation (`exceptions.ts`
plus the plain `Error`s thrown by `RemoteAPI` itself). -/
inductive Err where
  | endpointNotFound (service endpoint : String)
  | authStrategyNotImplemented (t : AuthType)
  | missingPathParams (f : UrlFailure)
  | invalidMethod (m : String)
  | invalidAuthParams (msg : String)
  | localRateLimitExceeded
  | retryAPICall (callParams : Option CallParams) (apiCall : APICall)
  | authenticationFailed (msg : String)
  | apiError (e : DispatchErr)
  | jsError (msg : String)

/-! ## Effects and auth strategies -/

/-- The four lifecycle phases of `EndpointEventTypes`. -/
inductive Phase where
  | before
  | success
  | error
  | after
deriving DecidableEq

/-- Observable effects of one invocation: lifecycle event emissions
(with the params object and APICall as the listener sees them at emission
time), transport dispatches, and access-token refresh invocations. -/
inductive Eff where
  | emit (service endpointName : String) (phase : Phase)
      (params : Option CallParams) (apiCall : APICall)
  | dispatch (req : Request)
  | refresh (params : CallParams)

/-- Effects an auth strategy hook can perform.  Strategies never reach
the transport themselves, so a dispatch is not among them. -/
inductive HookEff where
  | refresh (params : CallParams)

/-- Embed hook effects into the invocation trace. -/
def hookEffToEff : HookEff → Eff
  | HookEff.refresh p => Eff.refresh p

/-- Result of `AuthStrategy.onApiError`: the returned boolean or the
thrown exception, plus the post-mutation `callParams` and `apiCall`
(the TS hook mutates both in place) and the hook's effects. -/
structure HookResult where
  result : Except Err Bool
  params : Option CallParams
  apiCall : APICall
  effects : List HookEff

/-- An `AuthStrategy` instance: its type tag, its `execute`
(credential attachment, may throw `InvalidAuthParams`), and its
`onApiError` hook. -/
structure Strategy where
  type : AuthType
  execute : APICall → Except Err APICall
  onApiError : Option CallParams → APICall → DispatchErr → HookResult

/-- The overridable base-class hooks of `AuthStrategy`
(`isAuthError` / `onAuthError`), as injectable via
`AuthStrategyParams`. -/
structure BaseHooks where
  isAuthError : APICall → DispatchErr → Bool := fun _ _ => false
  onAuthError : Option CallParams → APICall → DispatchErr → Except Err Bool :=
    fun _ _ _ => Except.error (Err.authenticationFailed "Authentication failed")

/-- Models `AuthStrategy.onApiError` (base behavior): consult `isAuthError`; on
`true` delegate to `onAuthError` (which by default throws
`AuthenticationFailed`), otherwise return `true` (bubble up). -/
def baseOnApiError (hooks : BaseHooks) (params : Option CallParams)
    (apiCall : APICall) (e : DispatchErr) : HookResult :=
  if hooks.isAuthError apiCall e then
    { result := hooks.onAuthError params apiCall e
      params := params, apiCall := apiCall, effects := [] }
  else
    { result := Except.ok true
      params := params, apiCall := apiCall, effects := [] }

/-- Models `NoneAuthStrategy`: identity `execute`, `onApiError` returns
`true`. -/
def noneStrategy : Strategy where
  type := AuthType.NONE
  execute := fun apiCall => Except.ok apiCall
  onApiError := fun params apiCall _ =>
    { result := Except.ok true
      params := params, apiCall := apiCall, effects := [] }

/-- Models `BearerTokenAuthStrategy.execute`: require a truthy
`request.auth.accessToken` (else throw `InvalidAuthParams`) and set the
`Authorization: Bearer <token>` header. -/
def bearerExecute (apiCall : APICall) : Except Err APICall :=
  let tok :=
    match apiCall.request.auth with
    | none => none
    | some auth =>
      match lookupKey "accessToken" auth with
      | some v => if isTruthy v then some v else none
      | none => none
  match tok with
  | none => Except.error (Err.invalidAuthParams "No access token provided")
  | some v =>
    Except.ok { apiCall with
      request := { apiCall.request with
        headers := setField apiCall.request.headers "Authorization"
          ("Bearer " ++ jsToString v) } }
where
  /-- JS template-string interpolation of a value. -/
  jsToString : Json → String
    | Json.null => "null"
    | Json.bool b => if b then "true" else "false"
    | Json.num n => toString n
    | Json.str s => s
    | Json.arr _ => ""
    | Json.obj _ => "[object Object]"

/-- Models `BearerTokenAuthStrategy` with its injectable base hooks. -/
def bearerStrategy (hooks : BaseHooks) : Strategy where
  type := AuthType.BEARER_TOKEN
  execute := bearerExecute
  onApiError := baseOnApiError hooks

/-! ## Service configuration and `buildApiCall` -/

/-- The overridable per-service configuration of `RemoteAPI`: class name
(used in event names and messages), `baseUrl()`, `defaultHeaders()`,
rate-limit parameters, the `dryRun` flag, `isApiError`, the service-level
`onApiError` hook (its boolean return; the base implementation only logs
and returns `true`), and `defaultAuthStrategy()`. -/
structure SvcConfig where
  name : String
  baseUrl : String
  defaultHeaders : List (String × String) := []
  rl : RateLimitConfig := { rateLimit := 450, rateLimitWindowLength := 20000 }
  dryRun : Bool := false
  isApiError : DispatchErr → Bool := fun e => e.isAxios
  onApiErrorHook : Option CallParams → APICall → DispatchErr → Bool :=
    fun _ _ _ => true
  defaultAuthStrategy : AuthType := AuthType.NONE

/-- Models `RemoteAPI.addDefaultHeaders`: `{...defaultHeaders(), ...headers}`. -/
def addDefaultHeaders (cfg : SvcConfig) (req : Request) : Request :=
  { req with headers := mergeFields cfg.defaultHeaders req.headers }

/-- Models `RemoteAPI.buildApiCall`: construct the request (using
`overwriteUrl` when truthy, otherwise `constructUrl`), merge in default
headers, then run the strategy's `execute` (passed here as a plain
function).  Throws whatever URL construction or `execute` throw. -/
def buildApiCall (cfg : SvcConfig) (exec : APICall → Except Err APICall)
    (endpoint : Endpoint) (params : Option CallParams)
    (overwriteUrl : Option String) : Except Err APICall :=
  let urlRes : Except Err String :=
    match overwriteUrl with
    | some u =>
      if u = "" then
        match constructUrl cfg.baseUrl endpoint.url
            (params.bind (fun p => p.pathParams)) with
        | Except.ok v => Except.ok v
        | Except.error f => Except.error (Err.missingPathParams f)
      else Except.ok u
    | none =>
      match constructUrl cfg.baseUrl endpoint.url
          (params.bind (fun p => p.pathParams)) with
      | Except.ok v => Except.ok v
      | Except.error f => Except.error (Err.missingPathParams f)
  match urlRes with
  | Except.error e => Except.error e
  | Except.ok url =>
    let req : Request :=
      { method := endpoint.method
        url := url
        headers := endpoint.headers.getD []
        payload := params.bind (fun p => p.payload)
        auth := params.bind (fun p => p.auth)
        query := params.bind (fun p => p.query) }
    let apiCall : APICall :=
      { endpoint := endpoint, request := addDefaultHeaders cfg req
        response := none }
    exec apiCall

/-! ## `RefreshableBearerTokenAuthStrategy` -/

/-- The `.data` of a successful `refreshAccessToken` response. -/
structure AccessTokenResponse where
  accessToken : String
  refreshToken : Option String := none
  expiresIn : Nat := 0
  tokenType : Option String := none

/-- The injected configuration of `RefreshableBearerTokenAuthStrategy`:
base hooks, `isAccessTokenExpiredError`, `refreshAccessToken` (modelled
as total; the claims only exercise successful refreshes) and the
optional `buildRefreshAccessTokenPayload`. -/
structure RefreshableCfg where
  hooks : BaseHooks := {}
  isAccessTokenExpiredError : APICall → DispatchErr → Bool
  refreshAccessToken : CallParams → AccessTokenResponse
  buildRefreshAccessTokenPayload : Option (CallParams → Json) := none

/-- Models `RefreshableBearerTokenAuthStrategy.onApiError`: on an expired-token
error, overwrite `callParams.payload` in place with the refresh payload,
call `refreshAccessToken` on the mutated params, write the new token into
the old call's auth object, build a brand-new APICall carrying the
refreshed token and the original payload, and throw
`RetryAPICall(newCall)`; otherwise defer to the base classification. -/
def refreshableOnApiError (cfg : SvcConfig) (rc : RefreshableCfg)
    (params : Option CallParams) (apiCall : APICall) (e : DispatchErr) :
    HookResult :=
  if rc.isAccessTokenExpiredError apiCall e then
    match rc.buildRefreshAccessTokenPayload with
    | none =>
      { result := Except.error (Err.jsError
          "buildRefreshAccessTokenPayload not provided")
        params := params, apiCall := apiCall, effects := [] }
    | some build =>
      match params with
      | none =>
        { result := Except.error (Err.jsError
            "TypeError: cannot read properties of undefined")
          params := params, apiCall := apiCall, effects := [] }
      | some p =>
        let originalPayload := p.payload
        let p1 : CallParams := { p with payload := some (build p) }
        let newTokens := rc.refreshAccessToken p1
        let apiCall1 : APICall :=
          { apiCall with request := { apiCall.request with
              auth := some (setField (apiCall.request.auth.getD [])
                "accessToken" (Json.str newTokens.accessToken)) } }
        let newParams : CallParams :=
          { p1 with
            auth := some (setField (p1.auth.getD []) "accessToken"
              (Json.str newTokens.accessToken))
            payload := originalPayload }
        match buildApiCall cfg bearerExecute apiCall.endpoint
            (some newParams) none with
        | Except.ok newApiCall =>
          { result := Except.error (Err.retryAPICall (some p1) newApiCall)
            params := some p1, apiCall := apiCall1
            effects := [HookEff.refresh p1] }
        | Except.error e2 =>
          { result := Except.error e2
            params := some p1, apiCall := apiCall1
            effects := [HookEff.refresh p1] }
  else
    baseOnApiError rc.hooks params apiCall e

/-- The `RefreshableBearerTokenAuthStrategy` instance (its `execute` is
inherited from `BearerTokenAuthStrategy`). -/
def refreshableStrategy (cfg : SvcConfig) (rc : RefreshableCfg) : Strategy where
  type := AuthType.REFRESHABLE_BEARER_TOKEN
  execute := bearerExecute
  onApiError := refreshableOnApiError cfg rc

/-! ## The call pipeline (`RemoteAPI.call` and `executeApiCall`) -/

/-- A whole service: configuration, endpoint registry, and the strategy
map built from `useAuthStrategies()`. -/
structure Svc where
  cfg : SvcConfig
  endpoints : List (String × Endpoint)
  authStrategies : List (AuthType × Strategy) := []

/-- Models `RemoteAPI.buildAuthStrategy`: endpoint override or service default;
`NONE` is built in (a fresh `NoneAuthStrategy`), anything else must be
supplied by `useAuthStrategies()` or construction fails. -/
def buildAuthStrategy (svc : Svc) (endpoint : Endpoint) :
    Except Err Strategy :=
  let strategyType := endpoint.authentication.getD svc.cfg.defaultAuthStrategy
  match strategyType with
  | AuthType.NONE => Except.ok noneStrategy
  | t =>
    match lookupKey t svc.authStrategies with
    | some s => Except.ok s
    | none => Except.error (Err.authStrategyNotImplemented t)

/-- ASCII lowercase of a character (`toLowerCase` on the method names). -/
def lowerChar (c : Char) : Char :=
  if 'A' ≤ c && c ≤ 'Z' then Char.ofNat (c.toNat + 32) else c

/-- Models `method.toLowerCase()`. -/
def lowerString (s : String) : String := (s.toList.map lowerChar).asString

/-- Models `RemoteAPI.validateApiCall`: the lowercased method must be one of
`get`, `post`, `delete`, `patch`. -/
def validateApiCall (apiCall : APICall) : Except Err Unit :=
  let method := lowerString apiCall.request.method
  if method = "get" ∨ method = "post" ∨ method = "delete" ∨ method = "patch"
  then Except.ok ()
  else Except.error (Err.invalidMethod method)

/-- The external state one invocation threads: the rate-limit state, the
transport oracle (the outcome of each successive dispatch), and the clock
oracle (each successive `Date.now()`). -/
structure St where
  rl : RateLimitState APICall
  dispatches : List (Except DispatchErr Response)
  clock : List Nat

/-- Consume the next `Date.now()` value. -/
def popClock (st : St) : Nat × St :=
  match st.clock with
  | [] => (0, st)
  | n :: rest => (n, { st with clock := rest })

/-- Consume the next transport outcome (`doCall`). -/
def popDispatch (st : St) : Except DispatchErr Response × St :=
  match st.dispatches with
  | [] => (Except.error { isAxios := false, status := 0, data := Json.null },
      st)
  | o :: rest => (o, { st with dispatches := rest })

/-- Outcome of `executeApiCall`: the thrown exception or normal return,
plus the post-mutation `apiCall` and `params` (the TS method mutates both
through shared references). -/
structure ExecOut where
  result : Except Err Unit
  apiCall : APICall
  params : Option CallParams

/-- Models `RemoteAPI.executeApiCall`: enforce the rate limiter (rejection
throws `LocalRemoteAPIRateLimitExceeded` before any dispatch), dispatch
via the transport, and on a provider-API error run the auth strategy's
`onApiError` followed by the service-level hook, whose return value
becomes `bubbleUp`; a hook exception (`RetryAPICall` included) is
rethrown; `bubbleUp = false` suppresses the error and leaves the
response unset. -/
def executeApiCall (cfg : SvcConfig) (strat : Option Strategy)
    (params : Option CallParams) (apiCall : APICall) (st : St) :
    ExecOut × St × List Eff :=
  let nowSt := popClock st
  let adm := enforceGlobalRateLimit cfg.rl nowSt.1 nowSt.2.rl apiCall
  let st1 : St := { nowSt.2 with rl := adm.2 }
  if adm.1 then
    ({ result := Except.error Err.localRateLimitExceeded
       apiCall := apiCall, params := params }, st1, [])
  else if cfg.dryRun then
    let dryResp : Response :=
      { status := 0, data := Json.obj [("message", Json.str "dry-run-response")] }
    ({ result := Except.ok ()
       apiCall := { apiCall with response := some dryResp }
       params := params }, st1, [])
  else
    let outSt := popDispatch st1
    let st2 := outSt.2
    let effs : List Eff := [Eff.dispatch apiCall.request]
    match outSt.1 with
    | Except.ok resp =>
      ({ result := Except.ok ()
         apiCall := { apiCall with response := some resp }
         params := params }, st2, effs)
    | Except.error e =>
      if cfg.isApiError e then
        match strat with
        | some s =>
          let hr := s.onApiError params apiCall e
          let effs2 := effs ++ hr.effects.map hookEffToEff
          match hr.result with
          | Except.ok _ =>
            if cfg.onApiErrorHook hr.params hr.apiCall e then
              ({ result := Except.error (Err.apiError e)
                 apiCall := hr.apiCall, params := hr.params }, st2, effs2)
            else
              ({ result := Except.ok ()
                 apiCall := { hr.apiCall with response := none }
                 params := hr.params }, st2, effs2)
          | Except.error err =>
            ({ result := Except.error err
               apiCall := hr.apiCall, params := hr.params }, st2, effs2)
        | none =>
          if cfg.onApiErrorHook params apiCall e then
            ({ result := Except.error (Err.apiError e)
               apiCall := apiCall, params := params }, st2, effs)
          else
            ({ result := Except.ok ()
               apiCall := { apiCall with response := none }
               params := params }, st2, effs)
      else
        ({ result := Except.error (Err.apiError e)
           apiCall := apiCall, params := params }, st2, effs)

/-- Models `RemoteAPI.normalizeResponse`: apply the endpoint's normalization
rule to `response.data`, if any.  Reading `.data` of an absent response
is the TS `TypeError`. -/
def normalizeResponse (params : Option CallParams) (apiCall : APICall) :
    Except Err APICall :=
  match apiCall.endpoint.normalizationMapping with
  | none => Except.ok apiCall
  | some nm =>
    match apiCall.response with
    | none =>
      Except.error (Err.jsError
        "TypeError: cannot read properties of undefined (reading data)")
    | some resp =>
      let newData :=
        match nm with
        | NormalizationMapping.table m =>
          Json.obj (normalizeWithObjectMapping m resp.data).1
        | NormalizationMapping.func f => f params resp.data
      Except.ok { apiCall with response := some { resp with data := newData } }

/-- The tail of `RemoteAPI.call` after `executeApiCall` has come back
without a pending exception: `onApiSuccessResponse` (logging only),
`normalizeResponse`, emit `success` then `after`, and resolve with
`apiCall.response` (which can be absent). -/
def successTail (svc : Svc) (endpointName : String)
    (params : Option CallParams) (apiCall : APICall) (st : St)
    (trace : List Eff) : Except Err (Option Response) × St × List Eff :=
  match normalizeResponse params apiCall with
  | Except.error e => (Except.error e, st, trace)
  | Except.ok apiCall1 =>
    (Except.ok apiCall1.response, st,
      trace ++
        [Eff.emit svc.cfg.name endpointName Phase.success params apiCall1,
         Eff.emit svc.cfg.name endpointName Phase.after params apiCall1])

/-- Models `RemoteAPI.call`: endpoint lookup, strategy resolution, call
construction and validation (all before any event), the `before` event,
the first dispatch attempt, the single `RetryAPICall`-driven retry (a
second `RetryAPICall` becomes `AuthenticationFailed`; any other retry
failure is swallowed by the empty catch and falls through to the success
tail), and on a terminal first-attempt error the `error` and `after`
events before rethrowing. -/
def callPipeline (svc : Svc) (endpointName : String)
    (params : Option CallParams) (overwriteUrl : Option String) (st : St) :
    Except Err (Option Response) × St × List Eff :=
  match lookupKey endpointName svc.endpoints with
  | none =>
    (Except.error (Err.endpointNotFound svc.cfg.name endpointName), st, [])
  | some endpoint =>
    match buildAuthStrategy svc endpoint with
    | Except.error e => (Except.error e, st, [])
    | Except.ok strat =>
      match buildApiCall svc.cfg strat.execute endpoint params overwriteUrl with
      | Except.error e => (Except.error e, st, [])
      | Except.ok apiCall =>
        match validateApiCall apiCall with
        | Except.error e => (Except.error e, st, [])
        | Except.ok _ =>
          let ev0 : List Eff :=
            [Eff.emit svc.cfg.name endpointName Phase.before params apiCall]
          let x1 := executeApiCall svc.cfg (some strat) params apiCall st
          match x1.1.result with
          | Except.ok _ =>
            successTail svc endpointName x1.1.params x1.1.apiCall x1.2.1
              (ev0 ++ x1.2.2)
          | Except.error e =>
            match e with
            | Err.retryAPICall _ rApiCall =>
              let x2 := executeApiCall svc.cfg (some strat) x1.1.params
                rApiCall x1.2.1
              match x2.1.result with
              | Except.ok _ =>
                successTail svc endpointName x2.1.params x2.1.apiCall x2.2.1
                  (ev0 ++ x1.2.2 ++ x2.2.2)
              | Except.error e2 =>
                match e2 with
                | Err.retryAPICall _ _ =>
                  (Except.error (Err.authenticationFailed
                      ("Authentication failed: Retrying " ++ svc.cfg.name ++
                        "." ++ endpointName ++ " failed.")),
                    x2.2.1, ev0 ++ x1.2.2 ++ x2.2.2)
                | _ =>
                  successTail svc endpointName x2.1.params x2.1.apiCall x2.2.1
                    (ev0 ++ x1.2.2 ++ x2.2.2)
            | _ =>
              (Except.error e, x1.2.1,
                ev0 ++ x1.2.2 ++
                  [Eff.emit svc.cfg.name endpointName Phase.error x1.1.params
                      x1.1.apiCall,
                   Eff.emit svc.cfg.name endpointName Phase.after x1.1.params
                      x1.1.apiCall])

/-! ## Trace observers -/

/-- Number of transport dispatches in a trace. -/
def countDispatch : List Eff → Nat
  | [] => 0
  | Eff.dispatch _ :: rest => countDispatch rest + 1
  | _ :: rest => countDispatch rest

/-- Number of `refreshAccessToken` invocations in a trace. -/
def countRefresh : List Eff → Nat
  | [] => 0
  | Eff.refresh _ :: rest => countRefresh rest + 1
  | _ :: rest => countRefresh rest

/-- The lifecycle phases emitted by a trace, in order. -/
def phasesOf : List Eff → List Phase
  | [] => []
  | Eff.emit _ _ ph _ _ :: rest => ph :: phasesOf rest
  | _ :: rest => phasesOf rest

/-- The requests handed to the transport, in order. -/
def dispatchedRequests : List Eff → List Request
  | [] => []
  | Eff.dispatch r :: rest => r :: dispatchedRequests rest
  | _ :: rest => dispatchedRequests rest

/-- The `(phase, params)` pairs of the emitted events, in order. -/
def emittedParams : List Eff → List (Phase × Option CallParams)
  | [] => []
  | Eff.emit _ _ ph p _ :: rest => (ph, p) :: emittedParams rest
  | _ :: rest => emittedParams rest

/-! ## Rate-limiter lemmas and claims C5 / C6 -/

/-- One admission check keeps the counter within the limit. -/
theorem enforce_counter_le {α : Type} (cfg : RateLimitConfig) (now : Nat)
    (st : RateLimitState α) (call : α)
    (h : st.rateLimitWindowCounter ≤ cfg.rateLimit) :
    ((enforceGlobalRateLimit cfg now st call).2).rateLimitWindowCounter ≤
      cfg.rateLimit := by
  unfold enforceGlobalRateLimit
  dsimp only
  split <;> split <;> simp <;> omega

/-- Any sequence of admission checks keeps the counter within the
limit. -/
theorem admitSeq_counter_le {α : Type} (cfg : RateLimitConfig)
    (st : RateLimitState α) (checks : List (Nat × α))
    (h : st.rateLimitWindowCounter ≤ cfg.rateLimit) :
    (admitSeq cfg st checks).rateLimitWindowCounter ≤ cfg.rateLimit := by
  induction checks generalizing st with
  | nil => exact h
  | cons nc rest ih =>
    exact ih _ (enforce_counter_le cfg nc.1 st nc.2 h)

/-- C5.  Within one rate-limit window (no rollover), an admission check
with `counter < rateLimit()` admits the call and increments the counter
by exactly one; an admission check with `counter ≥ rateLimit()` appends
the call to the overflow buffer, leaves the counter unchanged and
rejects — and a rejected check makes `executeApiCall` fail with
`LocalRemoteAPIRateLimitExceeded` with no transport dispatch in its
trace; consequently, starting from a counter within `[0, rateLimit()]`,
the counter stays within `[0, rateLimit()]` across every sequence of
admission checks. -/
theorem rateLimit_window_admission {α : Type} (cfg : RateLimitConfig)
    (st : RateLimitState α) (now : Nat) (call : α)
    (hwin : now < nextRateLimitWindow cfg st) :
    (st.rateLimitWindowCounter < cfg.rateLimit →
      enforceGlobalRateLimit cfg now st call =
        (false,
          { st with rateLimitWindowCounter := st.rateLimitWindowCounter + 1 })) ∧
    (cfg.rateLimit ≤ st.rateLimitWindowCounter →
      enforceGlobalRateLimit cfg now st call =
        (true,
          { st with rateLimitedApiCalls :=
              st.rateLimitedApiCalls ++ [call] })) ∧
    (∀ (cfg2 : SvcConfig) (strat : Option Strategy)
        (params : Option CallParams) (apiCall : APICall) (s : St),
      (enforceGlobalRateLimit cfg2.rl (popClock s).1 (popClock s).2.rl
          apiCall).1 = true →
      (executeApiCall cfg2 strat params apiCall s).1.result =
          Except.error Err.localRateLimitExceeded ∧
        countDispatch (executeApiCall cfg2 strat params apiCall s).2.2 = 0) ∧
    (∀ checks : List (Nat × α),
      st.rateLimitWindowCounter ≤ cfg.rateLimit →
      (admitSeq cfg st checks).rateLimitWindowCounter ≤ cfg.rateLimit) := by
  have hno : ¬ nextRateLimitWindow cfg st ≤ now := by omega
  refine ⟨?_, ?_, ?_, fun checks h => admitSeq_counter_le cfg st checks h⟩
  · intro hlt
    unfold enforceGlobalRateLimit
    dsimp only
    simp only [if_neg hno]
    rw [if_neg (by omega : ¬ cfg.rateLimit ≤ st.rateLimitWindowCounter)]
  · intro hge
    unfold enforceGlobalRateLimit
    dsimp only
    simp only [if_neg hno]
    rw [if_pos hge]
  · intro cfg2 strat params apiCall s hrej
    unfold executeApiCall
    rw [if_pos hrej]
    exact ⟨rfl, rfl⟩

/-- C5 witness: concrete admission checks inside one window at
`rateLimit() = 2`. -/
theorem rateLimit_window_admission_witness :
    (5 : Nat) < nextRateLimitWindow ⟨2, 100⟩
      (initialRateLimitState (α := Nat) 0) ∧
    enforceGlobalRateLimit ⟨2, 100⟩ 5 (initialRateLimitState (α := Nat) 0) 7 =
      (false, { initialRateLimitState 0 with rateLimitWindowCounter := 1 }) := by
  refine ⟨by decide, ?_⟩
  exact ((rateLimit_window_admission ⟨2, 100⟩ (initialRateLimitState 0) 5 7
    (by decide)).1 (by decide))

/-- C6.  An admission check at `now ≥ windowStart + windowLength` starts
a fresh window before the limit test — `windowStart := now`, counter
reset, overflow buffer cleared (its length recorded as the last window's
overflow) — so that, whenever `rateLimit() > 0`, the very call that
rolled the window over is admitted into the fresh window. -/
theorem rateLimit_window_rollover {α : Type} (cfg : RateLimitConfig)
    (st : RateLimitState α) (now : Nat) (call : α)
    (hroll : nextRateLimitWindow cfg st ≤ now) (hpos : 0 < cfg.rateLimit) :
    enforceGlobalRateLimit cfg now st call =
      (false,
        { rateLimitWindowCounter := 1
          lastWindowOverflow := st.rateLimitedApiCalls.length
          currentRateLimitWindowStart := now
          rateLimitedApiCalls := [] }) := by
  unfold enforceGlobalRateLimit
  rw [if_pos hroll]
  dsimp only
  rw [if_neg (by omega)]

/-- C6 witness: a rollover check at `rateLimit() = 2` with a stale
window. -/
theorem rateLimit_window_rollover_witness :
    nextRateLimitWindow ⟨2, 100⟩
        ({ rateLimitWindowCounter := 2, lastWindowOverflow := 0
           currentRateLimitWindowStart := 0
           rateLimitedApiCalls := [9] } : RateLimitState Nat) ≤ 150 ∧
    enforceGlobalRateLimit ⟨2, 100⟩ 150
        ({ rateLimitWindowCounter := 2, lastWindowOverflow := 0
           currentRateLimitWindowStart := 0
           rateLimitedApiCalls := [9] } : RateLimitState Nat) 7 =
      (false,
        { rateLimitWindowCounter := 1, lastWindowOverflow := 1
          currentRateLimitWindowStart := 150, rateLimitedApiCalls := [] }) := by
  refine ⟨by decide, ?_⟩
  exact rateLimit_window_rollover ⟨2, 100⟩ _ 150 7 (by decide) (by decide)

/-! ## URL resolution: claim C7 -/

/-- C7 counterexample.  In the template `/a/:id.json` the placeholder
`:id` stands immediately after a path separator and is extracted (and
validated) as a required path parameter, yet `constructUrl` leaves it
unsubstituted even though `pathParams` supplies `id`, because the
replacement regex only fires when the placeholder is followed by `/` or
the end of the string.  The claim's promised result would be
`http://t/a/5.json`. -/
theorem constructUrl_lookahead_cex :
    extractPathParamNames (resolveBaseUrl "http://t" "/a/:id.json") = ["id"] ∧
    constructUrl "http://t" "/a/:id.json" (some [("id", "5")]) =
      Except.ok "http://t/a/:id.json" ∧
    ("http://t/a/:id.json" : String) ≠ "http://t/a/5.json" :=
  ⟨rfl, rfl, by decide⟩

/-- C7 (amended).  A template containing `://` is used as-is while any
other template is appended to `baseUrl()`; resolution fails with the
missing-path-parameter error when `pathParams` is absent or lacks a
value for some extracted placeholder; a placeholder `:name` immediately
after a path separator is replaced by literal substitution of the
corresponding `pathParams` value only where it is immediately followed
by a path separator or the end of the URL (so
`/users/:userId/details` with `{userId:"123"}` resolves to
`baseUrl() + "/users/123/details"` and omitting `userId` fails, while
`/a/:id.json` keeps `:id` unsubstituted). -/
theorem constructUrl_amended :
    (∀ base url : String,
      (hasSchemeSep url.toList = true → resolveBaseUrl base url = url) ∧
      (hasSchemeSep url.toList = false →
        resolveBaseUrl base url = base ++ url)) ∧
    (∀ (base url : String) (req : List String),
      extractPathParamNames (resolveBaseUrl base url) = req → req ≠ [] →
      constructUrl base url none =
        Except.error (UrlFailure.noPathParams url req)) ∧
    (∀ (base url : String) (entries : List (String × String))
        (req missing : List String),
      extractPathParamNames (resolveBaseUrl base url) = req →
      req.filter (fun p => !(entries.any (fun kv => kv.1 = p))) = missing →
      missing ≠ [] →
      constructUrl base url (some entries) =
        Except.error (UrlFailure.missingParams url missing)) ∧
    constructUrl "http://testapi.com" "/users/:userId/details"
        (some [("userId", "123")]) =
      Except.ok "http://testapi.com/users/123/details" ∧
    constructUrl "http://testapi.com" "/users/:userId/details" (some []) =
      Except.error
        (UrlFailure.missingParams "/users/:userId/details" ["userId"]) ∧
    constructUrl "http://t" "/a/:id.json" (some [("id", "5")]) =
      Except.ok "http://t/a/:id.json" := by
  refine ⟨?_, ?_, ?_, rfl, rfl, rfl⟩
  · intro base url
    constructor
    · intro h
      unfold resolveBaseUrl
      rw [if_pos h]
    · intro h
      unfold resolveBaseUrl
      rw [if_neg (fun hc => by rw [h] at hc; exact Bool.false_ne_true hc)]
  · intro base url req hreq hne
    unfold constructUrl
    dsimp only
    rw [hreq]
    cases req with
    | nil => exact absurd rfl hne
    | cons a l => rfl
  · intro base url entries req missing hreq hmiss hne
    unfold constructUrl
    dsimp only
    rw [hreq]
    cases req with
    | nil =>
      exact absurd (by simpa using hmiss.symm) hne
    | cons a l =>
      unfold validatePathParams
      dsimp only
      rw [hmiss]
      cases missing with
      | nil => exact absurd rfl hne
      | cons b m => rfl

/-- C7 (amended) witness: the hypothesized conjuncts applied at concrete
inputs. -/
theorem constructUrl_amended_witness :
    resolveBaseUrl "http://b" "/x" = "http://b" ++ "/x" ∧
    constructUrl "http://b" "/u/:a" none =
      Except.error (UrlFailure.noPathParams "/u/:a" ["a"]) ∧
    constructUrl "http://b" "/u/:a" (some []) =
      Except.error (UrlFailure.missingParams "/u/:a" ["a"]) :=
  ⟨(constructUrl_amended.1 "http://b" "/x").2 rfl,
   constructUrl_amended.2.1 "http://b" "/u/:a" ["a"] rfl (by decide),
   constructUrl_amended.2.2.1 "http://b" "/u/:a" [] ["a"] ["a"] rfl rfl
     (by decide)⟩

/-! ## Response normalization: claim C8 -/

/-- Assigning a key that is not present appends it. -/
theorem setField_of_not_mem {α : Type} (fields : List (String × α))
    (k : String) (v : α) (h : ∀ p ∈ fields, p.1 ≠ k) :
    setField fields k v = fields ++ [(k, v)] := by
  unfold setField
  rw [if_neg]
  simp only [List.any_eq_true, decide_eq_true_eq, not_exists, not_and]
  intro p hp
  exact h p hp

/-- Invariant-carrying description of the `normalizeWithObjectMapping`
fold: as long as the accumulator never already holds a key of the
remaining mapping and the mapping keys are distinct, the fold appends
exactly the resolvable entries and records exactly the unresolvable
ones. -/
theorem normalizeWithObjectMapping_fold (payload : Json) :
    ∀ (mapping : List (String × String)) (acc : List (String × Json))
      (warn : List (String × String)),
      (∀ kv ∈ mapping, ∀ p ∈ acc, p.1 ≠ kv.1) →
      (mapping.map Prod.fst).Nodup →
      mapping.foldl
          (fun acc kv =>
            match lodashGet payload kv.2 with
            | some v => (setField acc.1 kv.1 v, acc.2)
            | none => (acc.1, acc.2 ++ [kv]))
          (acc, warn) =
        (acc ++ mapping.filterMap
            (fun kv => (lodashGet payload kv.2).map (fun v => (kv.1, v))),
          warn ++ mapping.filter
            (fun kv => (lodashGet payload kv.2).isNone)) := by
  intro mapping
  induction mapping with
  | nil => intro acc warn _ _; simp
  | cons kv rest ih =>
    intro acc warn hdisj hnd
    rw [List.foldl_cons]
    cases hget : lodashGet payload kv.2 with
    | some v =>
      have hk : ∀ p ∈ acc, p.1 ≠ kv.1 :=
        fun p hp => hdisj kv (List.mem_cons_self kv rest) p hp
      have hnd2 := List.nodup_cons.mp (by simpa using hnd :
        (kv.1 :: rest.map Prod.fst).Nodup)
      have hdisj' : ∀ kv' ∈ rest, ∀ p ∈ acc ++ [(kv.1, v)], p.1 ≠ kv'.1 := by
        intro kv' hkv' p hp
        rcases List.mem_append.mp hp with hacc | hone
        · exact hdisj kv' (List.mem_cons_of_mem kv hkv') p hacc
        · have hp1 : p = (kv.1, v) := by simpa using hone
          subst hp1
          intro hcontra
          exact hnd2.1 (by
            rw [hcontra]
            exact List.mem_map.mpr ⟨kv', hkv', rfl⟩)
      dsimp only
      rw [setField_of_not_mem acc kv.1 v hk,
        ih (acc ++ [(kv.1, v)]) warn hdisj' hnd2.2]
      simp [List.filterMap_cons, List.filter_cons, hget]
    | none =>
      have hnd2 := List.nodup_cons.mp (by simpa using hnd :
        (kv.1 :: rest.map Prod.fst).Nodup)
      dsimp only
      rw [ih acc (warn ++ [kv])
        (fun kv' hkv' p hp => hdisj kv' (List.mem_cons_of_mem kv hkv') p hp)
        hnd2.2]
      simp [List.filterMap_cons, List.filter_cons, hget]

/-- C8.  For a mapping table with distinct target keys (a JS object) and
any payload, `normalizeWithObjectMapping` never throws (it is total) and
produces exactly the target keys whose dot-notation source path resolves
to a defined value, each bound to that value and in mapping order, while
the unresolvable entries are exactly the ones warned about and omitted;
the spec's example mapping produces `{accessToken: "abc"}`. -/
theorem normalizeWithObjectMapping_exact (mapping : List (String × String))
    (payload : Json) (hnd : (mapping.map Prod.fst).Nodup) :
    (normalizeWithObjectMapping mapping payload).1 =
        mapping.filterMap
          (fun kv => (lodashGet payload kv.2).map (fun v => (kv.1, v))) ∧
      (normalizeWithObjectMapping mapping payload).2 =
        mapping.filter (fun kv => (lodashGet payload kv.2).isNone) ∧
      normalizeWithObjectMapping [("accessToken", "tokens.access_token")]
          (Json.obj [("tokens", Json.obj [("access_token", Json.str "abc")])]) =
        ([("accessToken", Json.str "abc")], []) := by
  have := normalizeWithObjectMapping_fold payload mapping [] []
    (fun _ _ _ hp => absurd hp (List.not_mem_nil _)) hnd
  unfold normalizeWithObjectMapping
  rw [this]
  exact ⟨by simp, by simp, rfl⟩

/-- C8 witness: the key-nodup hypothesis discharged on the spec's
example mapping extended with a missing source path. -/
theorem normalizeWithObjectMapping_exact_witness :
    ((([("accessToken", "tokens.access_token"), ("missing", "a.b")] :
        List (String × String)).map Prod.fst).Nodup) ∧
    (normalizeWithObjectMapping
        [("accessToken", "tokens.access_token"), ("missing", "a.b")]
        (Json.obj [("tokens",
          Json.obj [("access_token", Json.str "abc")])])).2 =
      [("missing", "a.b")] :=
  ⟨by decide,
   by
    rw [(normalizeWithObjectMapping_exact
      [("accessToken", "tokens.access_token"), ("missing", "a.b")]
      (Json.obj [("tokens", Json.obj [("access_token", Json.str "abc")])])
      (by decide)).2.1]
    rfl⟩

/-! ## Construction failures precede all events: claim C9 -/

/-- C9.  Every failure raised while constructing or validating the call —
endpoint lookup, auth-strategy resolution, `buildApiCall` (which covers
`MissingPathParameter` from URL construction and `InvalidAuthParams`
from the strategy's `execute`), and HTTP-method validation — is thrown
before the `before` event, so such a call emits no lifecycle event at
all and leaves the state untouched. -/
theorem construction_failures_emit_no_events (svc : Svc)
    (endpointName : String) (params : Option CallParams)
    (ow : Option String) (st : St) :
    (lookupKey endpointName svc.endpoints = none →
      callPipeline svc endpointName params ow st =
        (Except.error (Err.endpointNotFound svc.cfg.name endpointName),
          st, [])) ∧
    (∀ ep e, lookupKey endpointName svc.endpoints = some ep →
      buildAuthStrategy svc ep = Except.error e →
      callPipeline svc endpointName params ow st = (Except.error e, st, [])) ∧
    (∀ ep strat e, lookupKey endpointName svc.endpoints = some ep →
      buildAuthStrategy svc ep = Except.ok strat →
      buildApiCall svc.cfg strat.execute ep params ow = Except.error e →
      callPipeline svc endpointName params ow st = (Except.error e, st, [])) ∧
    (∀ ep strat apiCall e, lookupKey endpointName svc.endpoints = some ep →
      buildAuthStrategy svc ep = Except.ok strat →
      buildApiCall svc.cfg strat.execute ep params ow = Except.ok apiCall →
      validateApiCall apiCall = Except.error e →
      callPipeline svc endpointName params ow st = (Except.error e, st, [])) := by
  refine ⟨?_, ?_, ?_, ?_⟩
  · intro h
    simp only [callPipeline, h]
  · intro ep e h1 h2
    simp only [callPipeline, h1, h2]
  · intro ep strat e h1 h2 h3
    simp only [callPipeline, h1, h2, h3]
  · intro ep strat apiCall e h1 h2 h3 h4
    simp only [callPipeline, h1, h2, h3, h4]

/-- A service with an empty endpoint registry, for witnesses. -/
def emptySvc : Svc :=
  { cfg := { name := "T", baseUrl := "http://b" }, endpoints := [] }

/-- An idle external state, for witnesses. -/
def idleSt : St :=
  { rl := initialRateLimitState 0, dispatches := [], clock := [] }

/-- C9 witness: an unknown endpoint name on an empty registry emits no
event. -/
theorem construction_failures_emit_no_events_witness :
    lookupKey "missing" emptySvc.endpoints = none ∧
    callPipeline emptySvc "missing" none none idleSt =
      (Except.error (Err.endpointNotFound "T" "missing"), idleSt, []) :=
  ⟨rfl,
   (construction_failures_emit_no_events emptySvc "missing" none none
      idleSt).1 rfl⟩

/-! ## A concrete refreshable-bearer service, shared by several claims -/

/-- A `GET /item` endpoint guarded by the refreshable-bearer strategy. -/
def epItem : Endpoint :=
  { name := "getItem", method := "GET", url := "/item"
    authentication := some AuthType.REFRESHABLE_BEARER_TOKEN }

/-- Service configuration with all hooks at their base-class defaults. -/
def cfgT : SvcConfig :=
  { name := "TestAPI", baseUrl := "http://t"
    rl := { rateLimit := 5, rateLimitWindowLength := 20000 } }

/-- A concrete refreshable-token configuration: a 401 means the token
expired, refreshing yields `tok2`, and the refresh request carries a
fixed refresh-token payload. -/
def rcT : RefreshableCfg :=
  { isAccessTokenExpiredError := fun _ e => e.status = 401
    refreshAccessToken := fun _ => { accessToken := "tok2" }
    buildRefreshAccessTokenPayload :=
      some (fun _ => Json.obj [("refreshToken", Json.str "r")]) }

/-- The service under test, exposing `getItem` through the refreshable
strategy. -/
def svcT : Svc :=
  { cfg := cfgT
    endpoints := [("getItem", epItem)]
    authStrategies :=
      [(AuthType.REFRESHABLE_BEARER_TOKEN, refreshableStrategy cfgT rcT)] }

/-- Call params with an original payload and an initial access token. -/
def paramsT : CallParams :=
  { payload := some (Json.str "orig")
    auth := some [("accessToken", Json.str "tok1")] }

/-- A 401 axios error (classified as expired token by `rcT`). -/
def err401 : DispatchErr := { isAxios := true, status := 401, data := Json.null }

/-- A 500 axios error (a provider error that is not token expiry). -/
def err500 : DispatchErr := { isAxios := true, status := 500, data := Json.null }

/-- External state whose transport fails with 401 then 500: the first
attempt triggers the `Retry` signal and the retry attempt then fails
with a non-`Retry` error. -/
def stRetryThenFail : St :=
  { rl := initialRateLimitState 0
    dispatches := [Except.error err401, Except.error err500]
    clock := [0, 0] }

/-! ## Claim C1 -/

/-- C1 (evaluation of the code at the failing input).  With the transport
failing 401 (which raises the `Retry` signal) and then 500 (a
non-`Retry` provider error that bubbles up), `call()` does NOT reject
and does NOT emit `error`: the empty inner catch swallows the retry
attempt's error, the pipeline falls through to the success path,
resolves with an absent (`undefined`) response and emits
`before, success, after` — exactly two dispatches and one refresh having
taken place.  The claim (and spec §4.5 step 7) instead require `error`
then `after` and a rejection with the retry error. -/
theorem call_swallows_retry_failure :
    (callPipeline svcT "getItem" (some paramsT) none stRetryThenFail).1 =
      Except.ok none ∧
    phasesOf
        (callPipeline svcT "getItem" (some paramsT) none stRetryThenFail).2.2 =
      [Phase.before, Phase.success, Phase.after] ∧
    countDispatch
        (callPipeline svcT "getItem" (some paramsT) none stRetryThenFail).2.2 =
      2 ∧
    countRefresh
        (callPipeline svcT "getItem" (some paramsT) none stRetryThenFail).2.2 =
      1 :=
  ⟨rfl, rfl, rfl, rfl⟩

/-! ## Claim C2: a second Retry is fatal; at most two dispatches -/

theorem countDispatch_append (a b : List Eff) :
    countDispatch (a ++ b) = countDispatch a + countDispatch b := by
  induction a with
  | nil => simp [countDispatch]
  | cons e rest ih => cases e <;> (simp [countDispatch, ih]; try omega)

theorem countDispatch_map_hookEff (l : List HookEff) :
    countDispatch (l.map hookEffToEff) = 0 := by
  induction l with
  | nil => rfl
  | cons e rest ih => cases e; simp [hookEffToEff, countDispatch, ih]

/-- One `executeApiCall` performs at most one transport dispatch:
strategy hooks have no access to the transport. -/
theorem executeApiCall_dispatch_le_one (cfg : SvcConfig)
    (strat : Option Strategy) (params : Option CallParams)
    (apiCall : APICall) (st : St) :
    countDispatch (executeApiCall cfg strat params apiCall st).2.2 ≤ 1 := by
  unfold executeApiCall
  dsimp only
  repeat' split
  all_goals
    simp [countDispatch, countDispatch_append, countDispatch_map_hookEff]

/-- The success tail adds only event emissions to the trace. -/
theorem successTail_dispatch (svc : Svc) (n : String)
    (params : Option CallParams) (apiCall : APICall) (st : St)
    (trace : List Eff) :
    countDispatch (successTail svc n params apiCall st trace).2.2 =
      countDispatch trace := by
  unfold successTail
  split
  · rfl
  · simp [countDispatch_append, countDispatch]

/-- Models `call()` performs at most two transport dispatches, whatever the
service, strategy behavior, oracle and parameters. -/
theorem callPipeline_dispatch_le_two (svc : Svc) (n : String)
    (params : Option CallParams) (ow : Option String) (st : St) :
    countDispatch (callPipeline svc n params ow st).2.2 ≤ 2 := by
  have h1 := executeApiCall_dispatch_le_one
  unfold callPipeline
  dsimp only
  repeat' split
  all_goals
    simp only [successTail_dispatch, List.append_eq, List.nil_append,
      countDispatch_append, countDispatch, Nat.add_zero, Nat.zero_add]
  all_goals
    first
      | omega
      | exact le_trans (h1 _ _ _ _ _) (by omega)
      | exact le_trans (Nat.add_le_add (h1 _ _ _ _ _) (h1 _ _ _ _ _))
          (by omega)

/-- C2.  When the first dispatch attempt raises the `Retry` signal and
the retry attempt raises a second `Retry` signal, `call()` rejects with
`AuthenticationFailed`; moreover no `call()` invocation — whatever the
service, strategies and oracle — ever performs more than two transport
dispatches. -/
theorem retry_twice_is_authentication_failed (svc : Svc)
    (endpointName : String) (params : Option CallParams) (ow : Option String)
    (st : St) {endpoint : Endpoint} {strat : Strategy} {apiCall : APICall}
    {p1 p2 : Option CallParams} {c1 c2 : APICall}
    (h1 : lookupKey endpointName svc.endpoints = some endpoint)
    (h2 : buildAuthStrategy svc endpoint = Except.ok strat)
    (h3 : buildApiCall svc.cfg strat.execute endpoint params ow =
      Except.ok apiCall)
    (h4 : validateApiCall apiCall = Except.ok ())
    (h5 : (executeApiCall svc.cfg (some strat) params apiCall st).1.result =
      Except.error (Err.retryAPICall p1 c1))
    (h6 : (executeApiCall svc.cfg (some strat)
        (executeApiCall svc.cfg (some strat) params apiCall st).1.params c1
        (executeApiCall svc.cfg (some strat) params apiCall st).2.1).1.result =
      Except.error (Err.retryAPICall p2 c2)) :
    (callPipeline svc endpointName params ow st).1 =
      Except.error (Err.authenticationFailed
        ("Authentication failed: Retrying " ++ svc.cfg.name ++ "." ++
          endpointName ++ " failed.")) ∧
    ∀ (svc2 : Svc) (n2 : String) (params2 : Option CallParams)
      (ow2 : Option String) (st2 : St),
      countDispatch (callPipeline svc2 n2 params2 ow2 st2).2.2 ≤ 2 := by
  refine ⟨?_, fun svc2 n2 params2 ow2 st2 =>
    callPipeline_dispatch_le_two svc2 n2 params2 ow2 st2⟩
  simp only [callPipeline, h1, h2, h3, h4, h5, h6]

/-- External state whose transport fails 401 twice: both dispatch
attempts raise the `Retry` signal. -/
def stRetryTwice : St :=
  { rl := initialRateLimitState 0
    dispatches := [Except.error err401, Except.error err401]
    clock := [0, 0] }

/-- C2 witness: the double-401 run of `svcT` rejects with
`AuthenticationFailed` after exactly two dispatches. -/
theorem retry_twice_is_authentication_failed_witness :
    (callPipeline svcT "getItem" (some paramsT) none stRetryTwice).1 =
      Except.error (Err.authenticationFailed
        "Authentication failed: Retrying TestAPI.getItem failed.") ∧
    countDispatch
        (callPipeline svcT "getItem" (some paramsT) none stRetryTwice).2.2 ≤
      2 := by
  have h := retry_twice_is_authentication_failed svcT "getItem"
    (some paramsT) none stRetryTwice rfl rfl rfl rfl rfl rfl
  exact ⟨h.1, h.2 svcT "getItem" (some paramsT) none stRetryTwice⟩

/-! ## Claim C4: hook ordering and the veto -/

/-- A strategy whose `onApiError` vetoes (returns `false`) without
throwing and without mutating anything. -/
def vetoStrategy : Strategy where
  type := AuthType.BEARER_TOKEN
  execute := fun apiCall => Except.ok apiCall
  onApiError := fun params apiCall _ =>
    { result := Except.ok false
      params := params, apiCall := apiCall, effects := [] }

/-- A pre-built call against `epItem`, for attempt-level scenarios. -/
def apiCallV : APICall :=
  { endpoint := epItem, request := { method := "GET", url := "http://t/item" } }

/-- External state whose single dispatch fails with the 500 axios
error. -/
def stOne500 : St :=
  { rl := initialRateLimitState 0
    dispatches := [Except.error err500]
    clock := [0] }

/-- C4 counterexample.  The strategy's `onApiError` returns `false`
(veto, without throwing) and the service hook keeps its default
(`true`), yet the error still propagates out of the attempt: the
assignment `bubbleUp = this.onApiError(...)` overwrites the strategy's
result. -/
theorem strategy_veto_overwritten_cex :
    (vetoStrategy.onApiError (some paramsT) apiCallV err500).result =
      Except.ok false ∧
    cfgT.onApiErrorHook (some paramsT) apiCallV err500 = true ∧
    (executeApiCall cfgT (some vetoStrategy) (some paramsT) apiCallV
        stOne500).1.result = Except.error (Err.apiError err500) :=
  ⟨rfl, rfl, rfl⟩

/-- C4 (amended).  On a dispatch failure classified as a provider-API
error, the auth strategy's `onApiError` runs before the service-level
hook (the service hook is applied to the strategy-mutated params and
call); when the strategy's hook returns a boolean without throwing,
propagation is decided solely by the service hook's return value — the
strategy's boolean, a `false` veto included, is overwritten; if the
service hook returns `false` the error does not propagate out of the
attempt and the response is left unset. -/
theorem onApiError_hooks_amended (cfg : SvcConfig) (strat : Strategy)
    (params : Option CallParams) (apiCall : APICall) (st : St)
    (e : DispatchErr) (drest : List (Except DispatchErr Response)) (b : Bool)
    (hadm : (enforceGlobalRateLimit cfg.rl (popClock st).1
      (popClock st).2.rl apiCall).1 = false)
    (hdry : cfg.dryRun = false)
    (hdisp : (popClock st).2.dispatches = Except.error e :: drest)
    (happ : cfg.isApiError e = true)
    (hres : (strat.onApiError params apiCall e).result = Except.ok b) :
    (cfg.onApiErrorHook (strat.onApiError params apiCall e).params
        (strat.onApiError params apiCall e).apiCall e = true →
      (executeApiCall cfg (some strat) params apiCall st).1.result =
        Except.error (Err.apiError e)) ∧
    (cfg.onApiErrorHook (strat.onApiError params apiCall e).params
        (strat.onApiError params apiCall e).apiCall e = false →
      (executeApiCall cfg (some strat) params apiCall st).1.result =
          Except.ok () ∧
        (executeApiCall cfg (some strat) params apiCall st).1.apiCall.response =
          none) := by
  constructor
  · intro hhook
    simp only [executeApiCall, popDispatch, hadm, hdry, hdisp, happ, hres,
      hhook, Bool.false_eq_true, if_false, if_true]
  · intro hhook
    simp only [executeApiCall, popDispatch, hadm, hdry, hdisp, happ, hres,
      hhook, Bool.false_eq_true, if_false, if_true]
    exact ⟨trivial, trivial⟩

/-- A service configuration whose service-level `onApiError` hook
vetoes. -/
def cfgVeto : SvcConfig :=
  { cfgT with onApiErrorHook := fun _ _ _ => false }

/-- C4 (amended) witness: both hook outcomes exercised at concrete
inputs — the default hook propagates, the vetoing hook suppresses. -/
theorem onApiError_hooks_amended_witness :
    (executeApiCall cfgT (some vetoStrategy) (some paramsT) apiCallV
        stOne500).1.result = Except.error (Err.apiError err500) ∧
    (executeApiCall cfgVeto (some vetoStrategy) (some paramsT) apiCallV
          stOne500).1.result = Except.ok () ∧
      (executeApiCall cfgVeto (some vetoStrategy) (some paramsT) apiCallV
          stOne500).1.apiCall.response = none :=
  ⟨(onApiError_hooks_amended cfgT vetoStrategy (some paramsT) apiCallV
      stOne500 err500 [] false rfl rfl rfl rfl rfl).1 rfl,
   (onApiError_hooks_amended cfgVeto vetoStrategy (some paramsT) apiCallV
      stOne500 err500 [] false rfl rfl rfl rfl rfl).2 rfl⟩

/-! ## Claim C3: expired token, refresh, retry, success -/

/-- Refreshable configuration built from injected functions. -/
def rcOf (isExp : APICall → DispatchErr → Bool)
    (refreshFn : CallParams → AccessTokenResponse)
    (buildFn : CallParams → Json) : RefreshableCfg :=
  { isAccessTokenExpiredError := isExp
    refreshAccessToken := refreshFn
    buildRefreshAccessTokenPayload := some buildFn }

/-- The `svcT`-shaped service with injected refreshable functions. -/
def svcOf (isExp : APICall → DispatchErr → Bool)
    (refreshFn : CallParams → AccessTokenResponse)
    (buildFn : CallParams → Json) : Svc :=
  { cfg := cfgT
    endpoints := [("getItem", epItem)]
    authStrategies :=
      [(AuthType.REFRESHABLE_BEARER_TOKEN,
        refreshableStrategy cfgT (rcOf isExp refreshFn buildFn))] }

/-- Call params with an arbitrary payload and access token. -/
def paramsOf (tok : String) (pl : Json) : CallParams :=
  { payload := some pl, auth := some [("accessToken", Json.str tok)] }

/-- The APICall `buildApiCall` produces for `epItem` from
`paramsOf tok pl` (token attached by the bearer `execute`). -/
def callOne (tok : String) (pl : Json) : APICall :=
  { endpoint := epItem
    request :=
      { method := "GET", url := "http://t/item"
        headers := [("Authorization", "Bearer " ++ tok)]
        auth := some [("accessToken", Json.str tok)]
        payload := some pl } }

theorem buildApiCall_item (tok : String) (htok : tok ≠ "") (pl : Json) :
    buildApiCall cfgT bearerExecute epItem (some (paramsOf tok pl)) none =
      Except.ok (callOne tok pl) := by
  unfold buildApiCall
  simp only [cfgT, epItem, paramsOf, Option.bind]
  simp only [show constructUrl "http://t" "/item" none =
    Except.ok "http://t/item" from rfl]
  unfold bearerExecute
  simp [lookupKey, isTruthy, htok, addDefaultHeaders, mergeFields, setField,
    callOne, bearerExecute.jsToString, epItem]

/-- External state whose transport fails with `e1` and then succeeds
with `resp`. -/
def stTwo (e1 : DispatchErr) (resp : Response)
    (drest : List (Except DispatchErr Response)) : St :=
  { rl := initialRateLimitState 0
    dispatches := Except.error e1 :: Except.ok resp :: drest
    clock := [0, 0] }

/-- The caller-visible params object after the refreshable strategy has
overwritten its payload with the refresh payload. -/
def p1Of (tok : String) (pl : Json) (buildFn : CallParams → Json) :
    CallParams :=
  { paramsOf tok pl with payload := some (buildFn (paramsOf tok pl)) }

/-- Models `callOne tok pl` after the strategy wrote the refreshed token into
its auth object in place. -/
def callOneUpd (tok newTok : String) (pl : Json) : APICall :=
  { endpoint := epItem
    request :=
      { method := "GET", url := "http://t/item"
        headers := [("Authorization", "Bearer " ++ tok)]
        auth := some [("accessToken", Json.str newTok)]
        payload := some pl } }

/-- Rate-limit state after one admitted check on a fresh window. -/
def rlAfterOne : RateLimitState APICall :=
  { initialRateLimitState 0 with rateLimitWindowCounter := 1 }

/-- First dispatch attempt of the C3 scenario: the expired-token error
triggers one refresh and surfaces as a `RetryAPICall` carrying the
brand-new call with the refreshed token and the original payload. -/
theorem exec1_refresh_eq (isExp : APICall → DispatchErr → Bool)
    (refreshFn : CallParams → AccessTokenResponse)
    (buildFn : CallParams → Json) (tok1 newTok : String) (pl : Json)
    (e1 : DispatchErr) (resp : Response)
    (drest : List (Except DispatchErr Response))
    (hax : e1.isAxios = true)
    (hexp : ∀ c, isExp c e1 = true)
    (hnew : ∀ p, (refreshFn p).accessToken = newTok)
    (hnewne : newTok ≠ "") :
    executeApiCall cfgT
        (some (refreshableStrategy cfgT (rcOf isExp refreshFn buildFn)))
        (some (paramsOf tok1 pl)) (callOne tok1 pl) (stTwo e1 resp drest) =
      ({ result := Except.error (Err.retryAPICall
            (some (p1Of tok1 pl buildFn)) (callOne newTok pl))
         apiCall := callOneUpd tok1 newTok pl
         params := some (p1Of tok1 pl buildFn) },
        { rl := rlAfterOne, dispatches := Except.ok resp :: drest
          clock := [0] },
        [Eff.dispatch (callOne tok1 pl).request,
         Eff.refresh (p1Of tok1 pl buildFn)]) := by
  unfold executeApiCall
  simp only [stTwo, popClock, popDispatch]
  simp only [show ∀ c : APICall,
    enforceGlobalRateLimit cfgT.rl 0 (initialRateLimitState 0) c =
      (false, { initialRateLimitState 0 with rateLimitWindowCounter := 1 })
    from fun c => rfl]
  simp only [show cfgT.dryRun = false from rfl, Bool.false_eq_true, if_false]
  simp only [show cfgT.isApiError e1 = e1.isAxios from rfl, hax, if_true]
  simp only [refreshableStrategy]
  unfold refreshableOnApiError
  simp only [rcOf, hexp, if_true]
  simp only [callOne]
  simp only [hnew, paramsOf, Option.getD_some]
  simp only [show setField [("accessToken", Json.str tok1)] "accessToken"
      (Json.str newTok) = [("accessToken", Json.str newTok)] from rfl]
  have hb2 : buildApiCall cfgT bearerExecute epItem
      (some { pathParams := none, query := none, payload := some pl,
              auth := some [("accessToken", Json.str newTok)],
              context := none })
      none = Except.ok (callOne newTok pl) := buildApiCall_item newTok hnewne pl
  simp only [hb2]
  simp [p1Of, paramsOf, callOneUpd, rlAfterOne, epItem, callOne, hookEffToEff,
    initialRateLimitState]

/-- Rate-limit state after two admitted checks on a fresh window. -/
def rlAfterTwo : RateLimitState APICall :=
  { initialRateLimitState 0 with rateLimitWindowCounter := 2 }

/-- Second dispatch attempt of the C3 scenario: the transport succeeds
and the response is recorded on the (rebuilt) call. -/
theorem exec2_success_eq (strat : Strategy) (params : Option CallParams)
    (apiCall : APICall) (resp : Response)
    (drest : List (Except DispatchErr Response)) :
    executeApiCall cfgT (some strat) params apiCall
        { rl := rlAfterOne, dispatches := Except.ok resp :: drest
          clock := [0] } =
      ({ result := Except.ok ()
         apiCall := { apiCall with response := some resp }
         params := params },
        { rl := rlAfterTwo, dispatches := drest, clock := [] },
        [Eff.dispatch apiCall.request]) := by
  unfold executeApiCall
  simp only [popClock, popDispatch]
  simp only [show ∀ c : APICall,
    enforceGlobalRateLimit cfgT.rl 0 rlAfterOne c = (false, rlAfterTwo)
    from fun c => rfl]
  simp [show cfgT.dryRun = false from rfl]

/-- C3.  When the first dispatch fails with an error the
RefreshableBearerToken strategy classifies as expired-token and the
retry dispatch succeeds: `refreshAccessToken` runs exactly once, exactly
two transport dispatches occur, the second dispatched request is the
brand-new APICall's — carrying the refreshed `accessToken` in its auth
params and the original payload — and `call()` resolves with the second
attempt's response. -/
theorem refresh_retry_success (isExp : APICall → DispatchErr → Bool)
    (refreshFn : CallParams → AccessTokenResponse)
    (buildFn : CallParams → Json) (tok1 newTok : String) (pl : Json)
    (e1 : DispatchErr) (resp : Response)
    (drest : List (Except DispatchErr Response))
    (htok1 : tok1 ≠ "")
    (hax : e1.isAxios = true)
    (hexp : ∀ c, isExp c e1 = true)
    (hnew : ∀ p, (refreshFn p).accessToken = newTok)
    (hnewne : newTok ≠ "") :
    (callPipeline (svcOf isExp refreshFn buildFn) "getItem"
        (some (paramsOf tok1 pl)) none (stTwo e1 resp drest)).1 =
      Except.ok (some resp) ∧
    countRefresh (callPipeline (svcOf isExp refreshFn buildFn) "getItem"
        (some (paramsOf tok1 pl)) none (stTwo e1 resp drest)).2.2 = 1 ∧
    countDispatch (callPipeline (svcOf isExp refreshFn buildFn) "getItem"
        (some (paramsOf tok1 pl)) none (stTwo e1 resp drest)).2.2 = 2 ∧
    dispatchedRequests (callPipeline (svcOf isExp refreshFn buildFn) "getItem"
        (some (paramsOf tok1 pl)) none (stTwo e1 resp drest)).2.2 =
      [(callOne tok1 pl).request, (callOne newTok pl).request] ∧
    lookupKey "accessToken" ((callOne newTok pl).request.auth.getD []) =
      some (Json.str newTok) ∧
    (callOne newTok pl).request.payload = some pl := by
  have hlook : lookupKey "getItem" (svcOf isExp refreshFn buildFn).endpoints =
    some epItem := rfl
  have hstrat : buildAuthStrategy (svcOf isExp refreshFn buildFn) epItem =
    Except.ok (refreshableStrategy cfgT (rcOf isExp refreshFn buildFn)) := rfl
  have hbuild : buildApiCall (svcOf isExp refreshFn buildFn).cfg
      (refreshableStrategy cfgT (rcOf isExp refreshFn buildFn)).execute epItem
      (some (paramsOf tok1 pl)) none = Except.ok (callOne tok1 pl) :=
    buildApiCall_item tok1 htok1 pl
  have hval : validateApiCall (callOne tok1 pl) = Except.ok () := rfl
  have hsvc : (svcOf isExp refreshFn buildFn).cfg = cfgT := rfl
  have e1eq := exec1_refresh_eq isExp refreshFn buildFn tok1 newTok pl e1
    resp drest hax hexp hnew hnewne
  have e2eq := exec2_success_eq
    (refreshableStrategy cfgT (rcOf isExp refreshFn buildFn))
    (some (p1Of tok1 pl buildFn)) (callOne newTok pl) resp drest
  unfold callPipeline
  simp only [hlook, hsvc, hstrat]
  simp only [hsvc] at hbuild
  simp only [hbuild, hval]
  simp only [e1eq, e2eq]
  simp [successTail, normalizeResponse, callOne, epItem, countRefresh,
    countDispatch, dispatchedRequests, lookupKey, svcOf]

/-- A successful second-attempt response, for witnesses. -/
def respOK : Response := { status := 200, data := Json.str "second" }

/-- C3 witness: all hypotheses discharged on the concrete 401-then-200
scenario. -/
theorem refresh_retry_success_witness :
    (callPipeline
        (svcOf (fun _ e => e.status = 401)
          (fun _ => { accessToken := "tok2" })
          (fun _ => Json.obj [("refreshToken", Json.str "r")]))
        "getItem" (some (paramsOf "tok1" (Json.str "orig"))) none
        (stTwo err401 respOK [])).1 = Except.ok (some respOK) ∧
    countDispatch (callPipeline
        (svcOf (fun _ e => e.status = 401)
          (fun _ => { accessToken := "tok2" })
          (fun _ => Json.obj [("refreshToken", Json.str "r")]))
        "getItem" (some (paramsOf "tok1" (Json.str "orig"))) none
        (stTwo err401 respOK [])).2.2 = 2 := by
  have h := refresh_retry_success (fun _ e => e.status = 401)
    (fun _ => { accessToken := "tok2" })
    (fun _ => Json.obj [("refreshToken", Json.str "r")])
    "tok1" "tok2" (Json.str "orig") err401 respOK []
    (by decide) rfl (fun c => rfl) (fun p => rfl) (by decide)
  exact ⟨h.1, h.2.2.1⟩

/-! ## Claim C10: the refresh mutates the caller's params in place -/

/-- The bearer `execute` only rewrites headers: it preserves the
request payload. -/
theorem bearerExecute_preserves_payload (c c' : APICall)
    (h : bearerExecute c = Except.ok c') :
    c'.request.payload = c.request.payload := by
  unfold bearerExecute at h
  dsimp only at h
  split at h
  · exact absurd h (by simp)
  · injection h with h2
    subst h2
    rfl

/-- Models `buildApiCall` copies the payload from the params unchanged,
provided the strategy's `execute` preserves payloads. -/
theorem buildApiCall_payload (cfg : SvcConfig)
    (exec : APICall → Except Err APICall) (ep : Endpoint)
    (params : Option CallParams) (ow : Option String) (newCall : APICall)
    (hexec : ∀ c c', exec c = Except.ok c' →
      c'.request.payload = c.request.payload)
    (h : buildApiCall cfg exec ep params ow = Except.ok newCall) :
    newCall.request.payload = params.bind (fun p => p.payload) := by
  unfold buildApiCall at h
  dsimp only at h
  repeat' split at h
  all_goals
    first
      | exact absurd h (by simp)
      | exact hexec _ _ h

/-- The only exception the bearer `execute` throws is
`InvalidAuthParams`. -/
theorem bearerExecute_error_shape (c : APICall) (e : Err)
    (h : bearerExecute c = Except.error e) :
    e = Err.invalidAuthParams "No access token provided" := by
  unfold bearerExecute at h
  dsimp only at h
  split at h
  · exact ((Except.error.injEq _ _).mp h).symm
  · exact absurd h (by simp)

/-- Models `buildApiCall` over the bearer `execute` only throws the
missing-path-parameter error or `InvalidAuthParams` — never a
`RetryAPICall`. -/
theorem buildApiCall_bearer_error (cfg : SvcConfig) (ep : Endpoint)
    (params : Option CallParams) (ow : Option String) (e : Err)
    (h : buildApiCall cfg bearerExecute ep params ow = Except.error e) :
    (∃ f, e = Err.missingPathParams f) ∨
      e = Err.invalidAuthParams "No access token provided" := by
  unfold buildApiCall at h
  dsimp only at h
  cases ow with
  | none =>
    cases hcu : constructUrl cfg.baseUrl ep.url
        (params.bind fun p => p.pathParams) with
    | ok v =>
      simp only [hcu] at h
      exact Or.inr (bearerExecute_error_shape _ _ h)
    | error f =>
      simp only [hcu] at h
      exact Or.inl ⟨f, ((Except.error.injEq _ _).mp h).symm⟩
  | some u =>
    by_cases hu : u = ""
    · simp only [hu, if_pos] at h
      cases hcu : constructUrl cfg.baseUrl ep.url
          (params.bind fun p => p.pathParams) with
      | ok v =>
        simp only [hcu] at h
        exact Or.inr (bearerExecute_error_shape _ _ h)
      | error f =>
        simp only [hcu] at h
        exact Or.inl ⟨f, ((Except.error.injEq _ _).mp h).symm⟩
    · simp only [if_neg hu] at h
      exact Or.inr (bearerExecute_error_shape _ _ h)

/-- The caller's params object of the `svcT` scenarios after the
strategy overwrote its payload with the refresh payload. -/
def paramsTMut : CallParams :=
  { paramsT with payload := some (Json.obj [("refreshToken", Json.str "r")]) }

/-- C10.  `RefreshableBearerTokenAuthStrategy.onApiError` mutates the
caller-supplied `callParams` in place on a token refresh: afterwards
`callParams.payload` is the refresh payload built by
`buildRefreshAccessTokenPayload` and is never restored; the
`refreshAccessToken` invocation already observes the overwritten payload;
only the rebuilt APICall carried by the `Retry` signal has the original
payload; and in a concrete refresh-retry run the `success` and `after`
events for the retried call are emitted with the mutated params object
(refresh payload) while `before` still saw the original. -/
theorem refreshable_onApiError_mutates_params (cfg : SvcConfig)
    (rc : RefreshableCfg) (p : CallParams) (apiCall : APICall)
    (e : DispatchErr) (f : CallParams → Json)
    (hexp : rc.isAccessTokenExpiredError apiCall e = true)
    (hb : rc.buildRefreshAccessTokenPayload = some f) :
    (refreshableOnApiError cfg rc (some p) apiCall e).params =
      some { p with payload := some (f p) } ∧
    (refreshableOnApiError cfg rc (some p) apiCall e).effects =
      [HookEff.refresh { p with payload := some (f p) }] ∧
    (∀ (p2 : Option CallParams) (newCall : APICall),
      (refreshableOnApiError cfg rc (some p) apiCall e).result =
        Except.error (Err.retryAPICall p2 newCall) →
      p2 = some { p with payload := some (f p) } ∧
      newCall.request.payload = p.payload) ∧
    emittedParams (callPipeline svcT "getItem" (some paramsT) none
        (stTwo err401 respOK [])).2.2 =
      [(Phase.before, some paramsT), (Phase.success, some paramsTMut),
       (Phase.after, some paramsTMut)] := by
  refine ⟨?_, ?_, ?_, rfl⟩
  · unfold refreshableOnApiError
    simp only [hexp, hb, if_true]
    split <;> rfl
  · unfold refreshableOnApiError
    simp only [hexp, hb, if_true]
    split <;> rfl
  · intro p2 newCall hres
    unfold refreshableOnApiError at hres
    simp only [hexp, hb, if_true] at hres
    split at hres
    · rename_i newApiCall heq
      have h2 := (Except.error.injEq _ _).mp hres
      injection h2 with hp hc
      subst hp
      subst hc
      refine ⟨rfl, ?_⟩
      have hpl := buildApiCall_payload cfg bearerExecute apiCall.endpoint _
        none newApiCall bearerExecute_preserves_payload heq
      simpa using hpl
    · rename_i e2 heq
      have h2 := (Except.error.injEq _ _).mp hres
      subst h2
      rcases buildApiCall_bearer_error cfg apiCall.endpoint _ none _ heq with
        ⟨g, hg⟩ | hg <;> exact absurd hg (by simp)

/-- C10 witness: hypotheses discharged on the concrete refreshable
configuration `rcT`. -/
theorem refreshable_onApiError_mutates_params_witness :
    (refreshableOnApiError cfgT rcT (some paramsT)
        (callOne "tok1" (Json.str "orig")) err401).params =
      some paramsTMut :=
  by
    have h := refreshable_onApiError_mutates_params cfgT rcT paramsT
      (callOne "tok1" (Json.str "orig")) err401
      (fun _ => Json.obj [("refreshToken", Json.str "r")]) rfl rfl
    exact h.1

end PlugCore
